import Mathlib

/-!
Verification development for the claim-validation service: a shallow embedding
of `utils/claude_validator.py` (response parsing and error recovery of
`validate_multiple_documents`) and of `main.py` (the rules-text cache
`get_rules_text` and the report-assembly part of `submit_claim`).

Python text is modeled as `List Char`.  Decoded JSON documents (the values
Python's `json.loads` produces) are modeled by `JValue`; `jsonLoads` is an
executable model of `json.loads` itself, so that decode success and failure are
computed, not assumed.  Partial Python operations (attribute errors on
non-dicts, unhashable dict keys, unsubscriptable values) are modeled in the
`Option` monad, where `none` is an uncaught exception at that point of the
Python program.
-/

set_option maxRecDepth 20000

/-- JSON values as produced by Python's json.loads: objects are
insertion-ordered dictionaries (a duplicate key keeps its first position and
takes its last value), and numbers are kept as their source lexeme, since no
code under study computes with them. -/
inductive JValue where
  | jnull : JValue
  | jbool (b : Bool) : JValue
  | jnum (lex : List Char) : JValue
  | jstr (s : List Char) : JValue
  | jarr (elems : List JValue) : JValue
  | jobj (fields : List (List Char × JValue)) : JValue

open JValue

/-- Whitespace accepted between JSON tokens (RFC 8259, as in Python's json). -/
def jsonWs (c : Char) : Bool := c = ' ' || c = '\t' || c = '\n' || c = '\r'

def skipWs (s : List Char) : List Char := s.dropWhile jsonWs

def hexVal (c : Char) : Option Nat :=
  if '0' ≤ c ∧ c ≤ '9' then some (c.toNat - '0'.toNat)
  else if 'a' ≤ c ∧ c ≤ 'f' then some (c.toNat - 'a'.toNat + 10)
  else if 'A' ≤ c ∧ c ≤ 'F' then some (c.toNat - 'A'.toNat + 10)
  else none

/-- One backslash escape inside a JSON string literal. -/
def parseEscape : List Char → Option (Char × List Char)
  | '"' :: r => some ('"', r)
  | '\\' :: r => some ('\\', r)
  | '/' :: r => some ('/', r)
  | 'b' :: r => some ('\x08', r)
  | 'f' :: r => some ('\x0c', r)
  | 'n' :: r => some ('\n', r)
  | 'r' :: r => some ('\r', r)
  | 't' :: r => some ('\t', r)
  | 'u' :: a :: b :: c :: d :: r => do
      let ha ← hexVal a
      let hb ← hexVal b
      let hc ← hexVal c
      let hd ← hexVal d
      let n := ha * 4096 + hb * 256 + hc * 16 + hd
      if h : n.isValidChar then some (Char.ofNatAux n h, r) else none
  | _ => none

/-- Body of a JSON string literal after the opening quote; unescaped control
characters are rejected as in Python's strict mode. -/
def parseStrBody : Nat → List Char → Option (List Char × List Char)
  | 0, _ => none
  | _ + 1, [] => none
  | _ + 1, '"' :: r => some ([], r)
  | fuel + 1, '\\' :: r => do
      let (c, r1) ← parseEscape r
      let (rest, r2) ← parseStrBody fuel r1
      some (c :: rest, r2)
  | fuel + 1, c :: r =>
      if c.toNat < 32 then none
      else do
        let (rest, r2) ← parseStrBody fuel r
        some (c :: rest, r2)

def parseStr (s : List Char) : Option (List Char × List Char) :=
  parseStrBody (s.length + 1) s

/-- Integer part of a JSON number: a single 0 or a nonzero-led digit run. -/
def parseIntPart : List Char → Option (List Char × List Char)
  | '0' :: r => some (['0'], r)
  | c :: r =>
      if c.isDigit then some (c :: r.takeWhile Char.isDigit, r.dropWhile Char.isDigit)
      else none
  | [] => none

def parseFracPart : List Char → Option (List Char × List Char)
  | '.' :: r =>
      if (r.takeWhile Char.isDigit).isEmpty then none
      else some ('.' :: r.takeWhile Char.isDigit, r.dropWhile Char.isDigit)
  | s => some ([], s)

def parseExpDigits (e : Char) (sign : List Char) (r : List Char) :
    Option (List Char × List Char) :=
  if (r.takeWhile Char.isDigit).isEmpty then none
  else some (e :: sign ++ r.takeWhile Char.isDigit, r.dropWhile Char.isDigit)

def parseExpPart : List Char → Option (List Char × List Char)
  | 'e' :: '+' :: r => parseExpDigits 'e' ['+'] r
  | 'e' :: '-' :: r => parseExpDigits 'e' ['-'] r
  | 'e' :: r => parseExpDigits 'e' [] r
  | 'E' :: '+' :: r => parseExpDigits 'E' ['+'] r
  | 'E' :: '-' :: r => parseExpDigits 'E' ['-'] r
  | 'E' :: r => parseExpDigits 'E' [] r
  | s => some ([], s)

def parseNum (s : List Char) : Option (List Char × List Char) := do
  let (sgn, s1) := match s with
    | '-' :: r => ((['-'] : List Char), r)
    | _ => ([], s)
  let (ip, s2) ← parseIntPart s1
  let (fp, s3) ← parseFracPart s2
  let (ep, s4) ← parseExpPart s3
  some (sgn ++ ip ++ fp ++ ep, s4)

/-- Insert a key into a JSON-object accumulator the way a Python dict does:
an existing key keeps its position and takes the new value. -/
def objInsert (kvs : List (List Char × JValue)) (k : List Char) (v : JValue) :
    List (List Char × JValue) :=
  if kvs.any (fun p => p.1 = k) then
    kvs.map (fun p => if p.1 = k then (k, v) else p)
  else kvs ++ [(k, v)]

mutual

def parseVal : Nat → List Char → Option (JValue × List Char)
  | 0, _ => none
  | fuel + 1, s =>
    match s with
    | '{' :: r => parseObjBody fuel (skipWs r)
    | '[' :: r => parseArrBody fuel (skipWs r)
    | '"' :: r => (parseStr r).map (fun p => (jstr p.1, p.2))
    | 't' :: 'r' :: 'u' :: 'e' :: r => some (jbool true, r)
    | 'f' :: 'a' :: 'l' :: 's' :: 'e' :: r => some (jbool false, r)
    | 'n' :: 'u' :: 'l' :: 'l' :: r => some (jnull, r)
    | c :: _ =>
        if c = '-' ∨ c.isDigit then (parseNum s).map (fun p => (jnum p.1, p.2))
        else none
    | [] => none

def parseObjBody : Nat → List Char → Option (JValue × List Char)
  | 0, _ => none
  | fuel + 1, s =>
    match s with
    | '}' :: r => some (jobj [], r)
    | _ => parseObjItems fuel s []

def parseObjItems : Nat → List Char → List (List Char × JValue) →
    Option (JValue × List Char)
  | 0, _, _ => none
  | fuel + 1, s, acc =>
    match s with
    | '"' :: r => do
        let (k, r1) ← parseStr r
        match skipWs r1 with
        | ':' :: r2 => do
            let (v, r3) ← parseVal fuel (skipWs r2)
            let acc' := objInsert acc k v
            match skipWs r3 with
            | ',' :: r4 => parseObjItems fuel (skipWs r4) acc'
            | '}' :: r4 => some (jobj acc', r4)
            | _ => none
        | _ => none
    | _ => none

def parseArrBody : Nat → List Char → Option (JValue × List Char)
  | 0, _ => none
  | fuel + 1, s =>
    match s with
    | ']' :: r => some (jarr [], r)
    | _ => parseArrItems fuel s []

def parseArrItems : Nat → List Char → List JValue → Option (JValue × List Char)
  | 0, _, _ => none
  | fuel + 1, s, acc => do
      let (v, r1) ← parseVal fuel s
      match skipWs r1 with
      | ',' :: r2 => parseArrItems fuel (skipWs r2) (acc ++ [v])
      | ']' :: r2 => some (jarr (acc ++ [v]), r2)
      | _ => none

end

/-- Executable model of Python's json.loads on the candidate text: exactly one
JSON value, surrounded only by JSON whitespace, else failure.  The fuel bound
2·length+2 dominates the recursion depth, every second step of which consumes
at least one input character. -/
def jsonLoads (s : List Char) : Option JValue := do
  let (v, r) ← parseVal (2 * s.length + 2) (skipWs s)
  if (skipWs r).isEmpty then some v else none

/-! Python-level helpers used by the embedded code. -/

/-- Whitespace stripped by Python's str.strip (the ASCII cases). -/
def pyIsSpace (c : Char) : Bool :=
  c = ' ' || c = '\t' || c = '\n' || c = '\r' || c = '\x0b' || c = '\x0c'

def pyStrip (s : List Char) : List Char :=
  ((s.dropWhile pyIsSpace).reverse.dropWhile pyIsSpace).reverse

/-- Index of the first occurrence of a character, if any. -/
def findIdxChar (c : Char) : List Char → Option Nat
  | [] => none
  | x :: r => if x = c then some 0 else (findIdxChar c r).map (· + 1)

/-- Python str.find for a single-character needle. -/
def pyFind (s : List Char) (c : Char) : Int :=
  match findIdxChar c s with
  | some i => (i : Int)
  | none => -1

/-- Python str.rfind for a single-character needle. -/
def pyRFind (s : List Char) (c : Char) : Int :=
  match findIdxChar c s.reverse with
  | some i => (s.length : Int) - 1 - (i : Int)
  | none => -1

/-- Python slice s[a:b] for 0 ≤ a ≤ b. -/
def pySlice (s : List Char) (a b : Nat) : List Char := (s.take b).drop a

def dictLookup (kvs : List (List Char × JValue)) (k : List Char) : Option JValue :=
  match kvs.find? (fun p => p.1 = k) with
  | some p => some p.2
  | none => none

/-- Python one-argument dict.get, v.get(k): the outer none models the
AttributeError raised when the receiver is not a dict; the inner none models
the Python None returned for an absent key. -/
def pyGet (v : JValue) (k : List Char) : Option (Option JValue) :=
  match v with
  | jobj kvs => some (dictLookup kvs k)
  | _ => none

/-- Python two-argument dict.get, v.get(k, d); none models the AttributeError
raised when the receiver is not a dict. -/
def pyGetD (v : JValue) (k : List Char) (d : JValue) : Option JValue :=
  match v with
  | jobj kvs => some ((dictLookup kvs k).getD d)
  | _ => none

/-- Python iteration over a decoded JSON value: lists yield their elements,
strings yield one-character strings, dicts yield their keys; the remaining
values are not iterable and raise TypeError (none). -/
def pyIter : JValue → Option (List JValue)
  | jarr xs => some xs
  | jstr s => some (s.map (fun c => jstr [c]))
  | jobj kvs => some (kvs.map (fun p => jstr p.1))
  | _ => none

/-- Python str() as interpolated by the f-strings of main.py, modeled for the
scalar values those f-strings are meant to receive; the decimal rendering of
numbers and the repr of containers are left out of the model (none). -/
def pyStr : JValue → Option (List Char)
  | jstr s => some s
  | jnull => some (("None").data)
  | jbool true => some (("True").data)
  | jbool false => some (("False").data)
  | _ => none

/-- A JSON number is zero exactly when every digit of its mantissa is 0. -/
def numLexIsZero (lex : List Char) : Bool :=
  ((lex.takeWhile (fun c => !(c == 'e' || c == 'E'))).filter Char.isDigit).all
    (fun c => c == '0')

/-- Python truthiness of a decoded JSON value. -/
def pyTruthy : JValue → Bool
  | jnull => false
  | jbool b => b
  | jnum lex => !(numLexIsZero lex)
  | jstr s => !s.isEmpty
  | jarr xs => !xs.isEmpty
  | jobj kvs => !kvs.isEmpty

/-- Truthiness of a Python expression that may be None. -/
def pyTruthyOpt : Option JValue → Bool
  | none => false
  | some v => pyTruthy v

/-- The Python test x == "lit" where x may be None: a non-string value is never
equal to a string, and the comparison itself never raises. -/
def optEqStr (v : Option JValue) (s : List Char) : Bool :=
  match v with
  | some (jstr t) => t = s
  | _ => false

/-- Python slicing x[:n], defined for strings and lists; other receivers are
unsubscriptable and raise TypeError (none). -/
def pySliceTo (n : Nat) : JValue → Option JValue
  | jstr s => some (jstr (s.take n))
  | jarr xs => some (jarr (xs.take n))
  | _ => none

def isObj : JValue → Bool
  | jobj _ => true
  | _ => false

/-- Values Python can use as dict keys: decoded JSON lists and dicts are
unhashable and make dict.get raise TypeError. -/
def pyHashable : JValue → Bool
  | jarr _ => false
  | jobj _ => false
  | _ => true

/-! Embedding of utils/claude_validator.py, validate_multiple_documents. -/

def idrKey : List Char := ("individual_document_reports").data

def oaKey : List Char := ("overall_assessment").data

def statusKey : List Char := ("overall_status").data

/-- The three suggestion strings of the json.JSONDecodeError branch
(claude_validator.py lines 204-208). -/
def decodeFailSuggestions : List JValue :=
  [ jstr (("The documents may be too complex for automated processing").data),
    jstr (("Try submitting clearer, more structured documents").data),
    jstr (("Manual review may be required").data) ]

/-- The three suggestion strings of the generic except branch
(claude_validator.py lines 218-222). -/
def invokeFailSuggestions : List JValue :=
  [ jstr (("Check AWS Bedrock permissions").data),
    jstr (("Verify the model is available in your region").data),
    jstr (("Try again later if this is a temporary service issue").data) ]

/-- Stands for the str(e) detail of the JSONDecodeError; the wording comes from
the json library and is abstracted here as an unspecified constant string. -/
def jsonErrDetail : List Char := []

/-- The synthetic result built by the json.JSONDecodeError branch
(claude_validator.py lines 198-210); t is the stripped response text, which the
code stores whole in raw_response. -/
def decodeErrorResult (t : List Char) : JValue :=
  jobj [ (idrKey, jarr []),
         (oaKey, jobj
            [ (statusKey, jstr (("ERROR").data)),
              (("error").data,
                jstr ((("Failed to parse Claude response as JSON: ").data) ++ jsonErrDetail)),
              (("raw_response").data, jstr t),
              (("suggestions").data, jarr decodeFailSuggestions) ]) ]

/-- The synthetic result built by the generic except branch
(claude_validator.py lines 213-224); msg is str(e) of the caught exception. -/
def invokeErrorResult (msg : List Char) : JValue :=
  jobj [ (idrKey, jarr []),
         (oaKey, jobj
            [ (statusKey, jstr (("ERROR").data)),
              (("error").data, jstr ((("Claude validation error: ").data) ++ msg)),
              (("suggestions").data, jarr invokeFailSuggestions) ]) ]

/-- Candidate selection of claude_validator.py lines 180-191, applied to the
stripped response text: the substring from the first open brace through the
last closing brace when found in that order, otherwise the whole text. -/
def parseCandidate (t : List Char) : List Char :=
  if pyFind t '{' ≥ 0 ∧ pyRFind t '}' + 1 > pyFind t '{' then
    pySlice t (pyFind t '{').toNat (pyRFind t '}' + 1).toNat
  else t

/-- validate_multiple_documents (claude_validator.py lines 170-224) as a
function of the outcome of its _invoke_claude call, the one external input that
determines the returned report: either the exception message of a failed
invocation, or the raw reply text.  The prompt built from claim type, rules and
documents does not influence the result shape and is not modeled. -/
def validate_multiple_documents (inv : Except (List Char) (List Char)) : JValue :=
  match inv with
  | .error e => invokeErrorResult e
  | .ok raw =>
    match jsonLoads (parseCandidate (pyStrip raw)) with
    | some v => v
    | none => decodeErrorResult (pyStrip raw)

/-! Embedding of main.py: the rules cache and the report assembly of
submit_claim. -/

/-- Outcome of one call to get_rules_text (main.py lines 26-42). -/
structure RulesCallResult where
  outcome : Except (List Char) (List Char)
  newCache : Option (List Char)
  fetchPerformed : Bool

/-- get_rules_text as a transition on the module global _cached_rules_text:
cache is the global before the call, fetchExtract the result the combined S3
download plus text extraction would have if performed, outcome the returned
text or the detail of the raised HTTPException, and fetchPerformed whether the
download was attempted at all. -/
def get_rules_text (cache : Option (List Char))
    (fetchExtract : Except (List Char) (List Char)) : RulesCallResult :=
  match cache with
  | some t => { outcome := .ok t, newCache := some t, fetchPerformed := false }
  | none =>
    match fetchExtract with
    | .ok t => { outcome := .ok t, newCache := some t, fetchPerformed := true }
    | .error e =>
        { outcome := .error ((("Failed to download or parse rules: ").data) ++ e),
          newCache := none, fetchPerformed := true }

/-- status_mapping of main.py lines 113-117. -/
def status_mapping : List (List Char × List Char) :=
  [ (("APPROVED").data, ("approved").data),
    (("REJECTED").data, ("rejected").data),
    (("NEEDS_REVIEW").data, ("needs_review").data) ]

/-- status_mapping.get(x, "needs_review") of main.py line 120, where x is
overall_assessment.get("overall_status") and may be None; an unhashable key
(decoded JSON list or dict) makes dict.get raise TypeError (none). -/
def statusMappingGet (x : Option JValue) : Option (List Char) :=
  match x with
  | none => some (("needs_review").data)
  | some v =>
    if pyHashable v then
      some (match v with
            | jstr s =>
                (match status_mapping.find? (fun p => p.1 = s) with
                 | some p => p.2
                 | none => ("needs_review").data)
            | _ => ("needs_review").data)
    else none

/-- The f-string of main.py line 130 for one document report and one finding. -/
def findingText (d f : JValue) : Option (List Char) := do
  let nv ← pyGetD d (("document_name").data) (jstr (("Unknown document").data))
  let ns ← pyStr nv
  let rv ← pyGetD f (("requirement").data) (jstr (("Unknown requirement").data))
  let rs ← pyStr rv
  let ev ← pyGetD f (("explanation").data) (jstr (("No explanation").data))
  let es ← pyStr ev
  pure (ns ++ ((" - ").data) ++ rs ++ ((": ").data) ++ es)

/-- The findings loop of main.py lines 128-134 for one document report,
threading the shared issues and critical_issues accumulators. -/
def runFindings (d : JValue) : List JValue → List (List Char) → List (List Char) →
    Option (List (List Char) × List (List Char))
  | [], acc, cacc => some (acc, cacc)
  | f :: rest, acc, cacc => do
      let st ← pyGet f (("status").data)
      if optEqStr st (("FAILED").data) then do
        let t ← findingText d f
        let sv ← pyGet f (("severity").data)
        if optEqStr sv (("CRITICAL").data) then runFindings d rest acc (cacc ++ [t])
        else runFindings d rest (acc ++ [t]) cacc
      else runFindings d rest acc cacc

/-- The document loop of main.py lines 127-137, threading issues,
critical_issues and all_recommendations. -/
def runReports : List JValue → List (List Char) → List (List Char) → List JValue →
    Option (List (List Char) × List (List Char) × List JValue)
  | [], acc, cacc, recs => some (acc, cacc, recs)
  | d :: rest, acc, cacc, recs => do
      let fv ← pyGetD d (("detailed_findings").data) (jarr [])
      let fl ← pyIter fv
      let (acc1, cacc1) ← runFindings d fl acc cacc
      let rv ← pyGetD d (("recommendations").data) (jarr [])
      let rl ← pyIter rv
      runReports rest acc1 cacc1 (recs ++ rl)

/-- The aggregation of main.py lines 123-147: the document loop, then the
overall recommendations, then missing-document and cross-document issue
strings appended to the issues list. -/
def aggregate (vr oa : JValue) :
    Option (List (List Char) × List (List Char) × List JValue) := do
  let rv ← pyGetD vr idrKey (jarr [])
  let rlist ← pyIter rv
  let (acc1, cacc1, recs1) ← runReports rlist [] [] []
  let orv ← pyGetD oa (("overall_recommendations").data) (jarr [])
  let orl ← pyIter orv
  let mdv ← pyGetD oa (("missing_documents").data) (jarr [])
  let mdl ← pyIter mdv
  let ms ← mdl.mapM (fun dv => (pyStr dv).map (fun s => (("Missing document: ").data) ++ s))
  let cdv ← pyGetD oa (("cross_document_inconsistencies").data) (jarr [])
  let cdl ← pyIter cdv
  let cs ← cdl.mapM (fun iv => do
      let xv ← pyGetD iv (("issue").data) (jstr (("Unknown issue").data))
      let xs ← pyStr xv
      pure ((("Cross-document issue: ").data) ++ xs))
  pure (acc1 ++ ms ++ cs, cacc1, recs1 ++ orl)

/-- The two JSON bodies submit_claim can return once a validation result is in
hand: the error body of main.py lines 105-110 or the report body of lines
149-161 (the request-constant fields model_used and filenames are omitted). -/
inductive SubmitResp where
  | errResp (error : JValue) (suggestions : JValue) (raw_response : JValue) : SubmitResp
  | okResp (status : List Char) (confidence_score : JValue)
      (critical_issues : List (List Char)) (issues : List (List Char))
      (compliance_summary : JValue) (recommendations : List JValue)
      (additional_notes : JValue) (individual_document_reports : JValue)
      (completeness_assessment : JValue) : SubmitResp

/-- main.py lines 101-161: the part of submit_claim that consumes the
validation result; none models an exception there, which the handler of lines
165-166 converts into an HTTP 500 processing error. -/
def submit_claim_respond (vr : JValue) : Option SubmitResp := do
  let oa0 ← pyGetD vr oaKey (jobj [])
  let st0 ← pyGet oa0 statusKey
  if optEqStr st0 (("ERROR").data) then do
    let ev ← pyGetD oa0 (("error").data) (jstr (("Unknown validation error").data))
    let sv ← pyGetD oa0 (("suggestions").data) (jarr [])
    let rv0 ← pyGet oa0 (("raw_response").data)
    let rr ←
      if pyTruthyOpt rv0 then do
        let rvd ← pyGetD oa0 (("raw_response").data) (jstr [])
        pySliceTo 500 rvd
      else pure (jstr [])
    pure (SubmitResp.errResp ev sv rr)
  else do
    let oa ← pyGetD vr oaKey (jobj [])
    let stv ← pyGet oa statusKey
    let status ← statusMappingGet stv
    let agg ← aggregate vr oa
    let conf ← pyGetD oa (("overall_confidence_score").data) (jnum (("0.0").data))
    let comp ← pyGetD oa (("cross_document_compliance").data) (jobj [])
    let notes ← pyGetD oa (("additional_notes").data) (jstr [])
    let idr ← pyGetD vr idrKey (jarr [])
    let compl ← pyGetD oa (("completeness_assessment").data) (jobj [])
    pure (SubmitResp.okResp status conf agg.2.1 agg.1 comp agg.2.2 notes idr compl)

/-! Definitions following the words of the specification, for comparison with
the embedded code (refinement claims). -/

/-- Issue, critical-issue and recommendation contributions of one document
report, taken in isolation, as spec 4.5 phrases them. -/
def docParts (d : JValue) :
    Option (List (List Char) × List (List Char) × List JValue) := do
  let fv ← pyGetD d (("detailed_findings").data) (jarr [])
  let fl ← pyIter fv
  let (acc, cacc) ← runFindings d fl [] []
  let rv ← pyGetD d (("recommendations").data) (jarr [])
  let rl ← pyIter rv
  pure (acc, cacc, rl)

/-- Per-document contributions concatenated in document order. -/
def docPartsAll : List JValue →
    Option (List (List Char) × List (List Char) × List JValue)
  | [] => some ([], [], [])
  | d :: rest => do
      let p ← docParts d
      let ps ← docPartsAll rest
      pure (p.1 ++ ps.1, p.2.1 ++ ps.2.1, p.2.2 ++ ps.2.2)

/-- ReportAggregator.flatten following the words of spec 4.5: per-document
contributions in document order (document i before document i+1), the overall
recommendations appended after all document recommendations, and the
missing-document strings then cross-document strings appended after all
per-document issues. -/
def aggregateFlattenSpec (vr oa : JValue) :
    Option (List (List Char) × List (List Char) × List JValue) := do
  let rv ← pyGetD vr idrKey (jarr [])
  let rlist ← pyIter rv
  let (acc1, cacc1, recs1) ← docPartsAll rlist
  let orv ← pyGetD oa (("overall_recommendations").data) (jarr [])
  let orl ← pyIter orv
  let mdv ← pyGetD oa (("missing_documents").data) (jarr [])
  let mdl ← pyIter mdv
  let ms ← mdl.mapM (fun dv => (pyStr dv).map (fun s => (("Missing document: ").data) ++ s))
  let cdv ← pyGetD oa (("cross_document_inconsistencies").data) (jarr [])
  let cdl ← pyIter cdv
  let cs ← cdl.mapM (fun iv => do
      let xv ← pyGetD iv (("issue").data) (jstr (("Unknown issue").data))
      let xs ← pyStr xv
      pure ((("Cross-document issue: ").data) ++ xs))
  pure (acc1 ++ ms ++ cs, cacc1, recs1 ++ orl)

/-! Accessors on validation results, used to state properties. -/

def oaOf (v : JValue) : Option JValue :=
  match v with
  | jobj kvs => dictLookup kvs oaKey
  | _ => none

def reportsOf (v : JValue) : Option JValue :=
  match v with
  | jobj kvs => dictLookup kvs idrKey
  | _ => none

def oaField (v : JValue) (k : List Char) : Option JValue :=
  match oaOf v with
  | some (jobj kvs) => dictLookup kvs k
  | _ => none

def statusOf (v : JValue) : Option JValue := oaField v statusKey

def errorOf (v : JValue) : Option JValue := oaField v (("error").data)

def rawResponseOf (v : JValue) : Option JValue := oaField v (("raw_response").data)

def suggestionsOf (v : JValue) : Option JValue := oaField v (("suggestions").data)

/-- Parsing or invocation failed: either _invoke_claude raised, or the chosen
candidate text does not decode as JSON. -/
def parseOrInvokeFailed : Except (List Char) (List Char) → Prop
  | .error _ => True
  | .ok raw => jsonLoads (parseCandidate (pyStrip raw)) = none

/-! Concrete reply texts used as counterexamples and witnesses. -/

def quoteJ (s : String) : List Char := '"' :: s.data ++ ['"']

def objTxt (inner : List Char) : List Char := '{' :: inner ++ ['}']

/-- The reply text with a decodable JSON object carrying overall_status ERROR
and a nonempty individual_document_reports list. -/
def rawErrorStatus : List Char :=
  objTxt (quoteJ ("overall_assessment") ++ ((": ").data) ++
    objTxt (quoteJ ("overall_status") ++ ((": ").data) ++ quoteJ ("ERROR")) ++
    ((", ").data) ++ quoteJ ("individual_document_reports") ++ ((": [").data) ++
    objTxt [] ++ (("]").data))

/-- The reply text whose overall_status decodes to a JSON list. -/
def rawListStatus : List Char :=
  objTxt (quoteJ ("overall_assessment") ++ ((": ").data) ++
    objTxt (quoteJ ("overall_status") ++ ((": []").data)))

/-- The decoded value of rawListStatus. -/
def vrListStatus : JValue :=
  jobj [(oaKey, jobj [(statusKey, jarr [])])]

/-- A sample document report carrying only a document name. -/
def sampleDoc : JValue :=
  jobj [((("document_name").data), jstr (("doc1").data))]

/-- A sample FAILED finding of CRITICAL severity. -/
def sampleFindingKvs : List (List Char × JValue) :=
  [ ((("status").data), jstr (("FAILED").data)),
    ((("severity").data), jstr (("CRITICAL").data)),
    ((("requirement").data), jstr (("req").data)),
    ((("explanation").data), jstr (("exp").data)) ]

/-! Helper lemmas. -/

theorem mem_of_mem_dropWhile {p : Char → Bool} {x : Char} {l : List Char}
    (h : x ∈ List.dropWhile p l) : x ∈ l := by
  induction l with
  | nil => simp at h
  | cons a l ih =>
      by_cases ha : p a
      · simp only [List.dropWhile_cons, ha, if_true] at h
        exact List.mem_cons_of_mem a (ih h)
      · simp only [List.dropWhile_cons, ha, if_false] at h
        exact h

theorem dropWhile_append_cons (p : Char → Bool) (l1 : List Char) (c : Char)
    (t : List Char) (hc : p c = false) :
    List.dropWhile p (l1 ++ c :: t) = List.dropWhile p l1 ++ c :: t := by
  induction l1 with
  | nil => simp [List.dropWhile_cons, hc]
  | cons a l ih =>
      by_cases ha : p a
      · simp [List.dropWhile_cons, ha, ih]
      · simp [List.dropWhile_cons, ha]

theorem findIdxChar_append_cons (c : Char) (l1 t : List Char)
    (h : ∀ x ∈ l1, x ≠ c) :
    findIdxChar c (l1 ++ c :: t) = some l1.length := by
  induction l1 with
  | nil => simp [findIdxChar]
  | cons a l ih =>
      have ha : a ≠ c := h a (List.mem_cons_self a l)
      simp [findIdxChar, ha, ih (fun x hx => h x (List.mem_cons_of_mem a hx))]

theorem validate_ok_decode_fail (raw : List Char)
    (h : jsonLoads (parseCandidate (pyStrip raw)) = none) :
    validate_multiple_documents (.ok raw) = decodeErrorResult (pyStrip raw) := by
  show (match jsonLoads (parseCandidate (pyStrip raw)) with
        | some v => v
        | none => decodeErrorResult (pyStrip raw)) = decodeErrorResult (pyStrip raw)
  rw [h]

theorem validate_ok_decode_some (raw : List Char) (v : JValue)
    (h : jsonLoads (parseCandidate (pyStrip raw)) = some v) :
    validate_multiple_documents (.ok raw) = v := by
  show (match jsonLoads (parseCandidate (pyStrip raw)) with
        | some w => w
        | none => decodeErrorResult (pyStrip raw)) = v
  rw [h]

/-! Claim theorems: the resilient error paths of validate_multiple_documents. -/

/-- Claim C1, counterexample: for the undecodable 501-character reply the
synthetic ERROR result of validate_multiple_documents stores the whole raw
text in raw_response, not at most its first 500 characters. -/
theorem validator_error_raw_response_untruncated :
    rawResponseOf (validate_multiple_documents (.ok (List.replicate 501 'a'))) =
      some (jstr (List.replicate 501 'a')) ∧
    500 < (List.replicate 501 'a').length := by
  constructor
  · rfl
  · simp

/-- Claim C1 as amended: whenever the candidate text of a raw reply does not
decode as JSON, validate_multiple_documents returns (never raises) a synthetic
result whose overall_assessment has overall_status ERROR, an error field
carrying the decode-failure description, raw_response set to the entire
whitespace-stripped raw text (the 500-character truncation is applied later by
the submit_claim handler), and the fixed list of exactly three human-facing
suggestion strings. -/
theorem validator_decode_failure_error_shape (raw : List Char)
    (h : jsonLoads (parseCandidate (pyStrip raw)) = none) :
    statusOf (validate_multiple_documents (.ok raw)) = some (jstr (("ERROR").data)) ∧
    errorOf (validate_multiple_documents (.ok raw)) =
      some (jstr ((("Failed to parse Claude response as JSON: ").data) ++ jsonErrDetail)) ∧
    rawResponseOf (validate_multiple_documents (.ok raw)) = some (jstr (pyStrip raw)) ∧
    suggestionsOf (validate_multiple_documents (.ok raw)) =
      some (jarr decodeFailSuggestions) ∧
    decodeFailSuggestions.length = 3 := by
  rw [validate_ok_decode_fail raw h]
  exact ⟨rfl, rfl, rfl, rfl, rfl⟩

/-- Witness for the amended claim C1 at the undecodable reply "hello". -/
theorem validator_decode_failure_error_shape_witness :
    jsonLoads (parseCandidate (pyStrip (("hello").data))) = none ∧
    statusOf (validate_multiple_documents (.ok (("hello").data))) =
      some (jstr (("ERROR").data)) := by
  refine ⟨rfl, ?_⟩
  exact (validator_decode_failure_error_shape (("hello").data) rfl).1

/-- Claim C3, counterexample: a reply whose candidate text decodes successfully
can itself carry overall_status ERROR together with a nonempty
individual_document_reports list, because the success path returns the decoded
value verbatim; so ERROR does not imply that parsing failed or that the report
list is empty. -/
theorem error_status_with_nonempty_reports_on_success_path :
    (jsonLoads (parseCandidate (pyStrip rawErrorStatus))).isSome = true ∧
    statusOf (validate_multiple_documents (.ok rawErrorStatus)) =
      some (jstr (("ERROR").data)) ∧
    reportsOf (validate_multiple_documents (.ok rawErrorStatus)) =
      some (jarr [jobj []]) := by
  exact ⟨rfl, rfl, rfl⟩

/-- Claim C3 as amended: when invocation or parsing fails, the result of
validate_multiple_documents has overall_status ERROR and an empty
individual_document_reports list; the converse implication does not hold, since
on the success path the decoded reply is returned verbatim with no schema
validation and may itself contain any status and any report list. -/
theorem failure_implies_error_status_and_empty_reports
    (inv : Except (List Char) (List Char)) (h : parseOrInvokeFailed inv) :
    statusOf (validate_multiple_documents inv) = some (jstr (("ERROR").data)) ∧
    reportsOf (validate_multiple_documents inv) = some (jarr []) := by
  cases inv with
  | error e => exact ⟨rfl, rfl⟩
  | ok raw =>
      rw [validate_ok_decode_fail raw h]
      exact ⟨rfl, rfl⟩

/-- Witness for the amended claim C3 at a failed invocation. -/
theorem failure_implies_error_status_witness :
    parseOrInvokeFailed (.error (("boom").data)) ∧
    statusOf (validate_multiple_documents (.error (("boom").data))) =
      some (jstr (("ERROR").data)) := by
  refine ⟨trivial, ?_⟩
  exact (failure_implies_error_status_and_empty_reports (.error (("boom").data)) trivial).1

/-- Claim C7: every invocation failure other than a JSON decode failure is
converted into a returned ERROR-shaped result - empty report list, status
ERROR, the wrapped error message, and the three operationally oriented
suggestion strings - so the caller of this stage always receives a well-formed
report value, never a raised fault. -/
theorem validator_invocation_failure_error_shape (msg : List Char) :
    statusOf (validate_multiple_documents (.error msg)) = some (jstr (("ERROR").data)) ∧
    reportsOf (validate_multiple_documents (.error msg)) = some (jarr []) ∧
    errorOf (validate_multiple_documents (.error msg)) =
      some (jstr ((("Claude validation error: ").data) ++ msg)) ∧
    suggestionsOf (validate_multiple_documents (.error msg)) =
      some (jarr invokeFailSuggestions) ∧
    invokeFailSuggestions.length = 3 := by
  exact ⟨rfl, rfl, rfl, rfl, rfl⟩

/-- Claim C8: a first successful call to get_rules_text performs the fetch and
caches the text, a second call with any fetch outcome performs no fetch and
returns the same cached value; and after a failed first call nothing is cached,
so a later call fetches again from scratch and can succeed. -/
theorem rules_cache_idempotent_and_failure_not_cached (t e : List Char)
    (fr2 : Except (List Char) (List Char)) :
    ((get_rules_text none (.ok t)).fetchPerformed = true ∧
     (get_rules_text none (.ok t)).outcome = .ok t ∧
     (get_rules_text (get_rules_text none (.ok t)).newCache fr2).fetchPerformed = false ∧
     (get_rules_text (get_rules_text none (.ok t)).newCache fr2).outcome = .ok t) ∧
    ((get_rules_text none (.error e)).newCache = none ∧
     (get_rules_text (get_rules_text none (.error e)).newCache (.ok t)).fetchPerformed
        = true ∧
     (get_rules_text (get_rules_text none (.error e)).newCache (.ok t)).outcome
        = .ok t) := by
  exact ⟨⟨rfl, rfl, rfl, rfl⟩, ⟨rfl, rfl, rfl⟩⟩

/-- Claim C10: the reply "[1]" decodes to a JSON list, validate_multiple_documents
returns that non-dict value as is, and the report assembly of submit_claim then
fails with an unhandled processing error (an HTTP 500), not an ERROR-shaped or
success report. -/
theorem validator_non_object_reply_processing_error :
    validate_multiple_documents (.ok (("[1]").data)) = jarr [jnum ['1']] ∧
    isObj (jarr [jnum ['1']]) = false ∧
    submit_claim_respond (validate_multiple_documents (.ok (("[1]").data))) = none := by
  exact ⟨rfl, rfl, rfl⟩

/-! Extraction of an embedded JSON object from surrounding prose. -/

theorem pyStrip_embed (pre mid post : List Char) :
    pyStrip (pre ++ ('{' :: mid ++ ['}']) ++ post) =
      List.dropWhile pyIsSpace pre ++ ('{' :: mid ++ ['}']) ++
        (List.dropWhile pyIsSpace post.reverse).reverse := by
  have hob : pyIsSpace '{' = false := rfl
  have hcb : pyIsSpace '}' = false := rfl
  unfold pyStrip
  have e1 : pre ++ ('{' :: mid ++ ['}']) ++ post = pre ++ '{' :: (mid ++ ['}'] ++ post) := by
    simp [List.append_assoc]
  rw [e1, dropWhile_append_cons _ _ _ _ hob]
  have e2 : (List.dropWhile pyIsSpace pre ++ '{' :: (mid ++ ['}'] ++ post)).reverse
      = post.reverse ++ '}' :: (mid.reverse ++ '{' :: (List.dropWhile pyIsSpace pre).reverse) := by
    simp [List.reverse_append, List.append_assoc]
  rw [e2, dropWhile_append_cons _ _ _ _ hcb]
  simp [List.reverse_append, List.append_assoc]

theorem parseCandidate_embed (p1 mid p2 : List Char)
    (h1 : ∀ x ∈ p1, x ≠ '{' ∧ x ≠ '}')
    (h2 : ∀ x ∈ p2, x ≠ '{' ∧ x ≠ '}') :
    parseCandidate (p1 ++ ('{' :: mid ++ ['}']) ++ p2) = '{' :: mid ++ ['}'] := by
  have hfind : pyFind (p1 ++ ('{' :: mid ++ ['}']) ++ p2) '{' = (p1.length : Int) := by
    have e1 : p1 ++ ('{' :: mid ++ ['}']) ++ p2 = p1 ++ '{' :: (mid ++ ['}'] ++ p2) := by
      simp [List.append_assoc]
    unfold pyFind
    rw [e1, findIdxChar_append_cons _ _ _ (fun x hx => (h1 x hx).1)]
  have hrfind : pyRFind (p1 ++ ('{' :: mid ++ ['}']) ++ p2) '}' =
      (p1.length : Int) + mid.length + 1 := by
    unfold pyRFind
    have e2 : (p1 ++ ('{' :: mid ++ ['}']) ++ p2).reverse
        = p2.reverse ++ '}' :: (mid.reverse ++ '{' :: p1.reverse) := by
      simp [List.reverse_append, List.append_assoc]
    rw [e2, findIdxChar_append_cons _ _ _
      (fun x hx => (h2 x (List.mem_reverse.mp hx)).2)]
    simp [List.length_append, List.length_reverse]
    omega
  unfold parseCandidate
  rw [hfind, hrfind]
  rw [if_pos (by constructor <;> omega)]
  have e3 : ((p1.length : Int)).toNat = p1.length := by omega
  have e4 : ((p1.length : Int) + mid.length + 1 + 1).toNat = p1.length + (mid.length + 2) := by
    omega
  rw [e3, e4]
  unfold pySlice
  rw [List.take_left' (by simp)]
  rw [List.drop_left]

/-- Claim C2: the parser strips the reply, then decodes the substring between
the first open brace and the last closing brace when both exist in that order
(and the whole stripped text otherwise); hence a well-formed JSON object
wrapped in arbitrary leading and trailing prose with no further braces is
extracted and decoded correctly, and validate_multiple_documents returns
exactly its decoded value. -/
theorem responseParser_extracts_embedded_object (pre mid post : List Char) (v : JValue)
    (h1 : ∀ x ∈ pre, x ≠ '{' ∧ x ≠ '}')
    (h2 : ∀ x ∈ post, x ≠ '{' ∧ x ≠ '}')
    (hv : jsonLoads ('{' :: mid ++ ['}']) = some v) :
    validate_multiple_documents (.ok (pre ++ ('{' :: mid ++ ['}']) ++ post)) = v := by
  apply validate_ok_decode_some
  rw [pyStrip_embed]
  rw [parseCandidate_embed _ _ _
    (fun x hx => h1 x (mem_of_mem_dropWhile hx))
    (fun x hx => h2 x (List.mem_reverse.mp (mem_of_mem_dropWhile (List.mem_reverse.mp hx))))]
  exact hv

/-- Witness for claim C2: the object embedded in a chatty reply is decoded. -/
theorem responseParser_extracts_embedded_object_witness :
    validate_multiple_documents
        (.ok ((("Sure! Here is the result: ").data) ++
          ('{' :: (quoteJ ("a") ++ ((": 1").data)) ++ ['}']) ++
          ((" Hope this helps!").data))) = jobj [(['a'], jnum ['1'])] := by
  apply responseParser_extracts_embedded_object
  · decide
  · decide
  · rfl

/-! Status resolution (main.py lines 113-120). -/

/-- Claim C4, counterexample: when the decoded overall_status is a JSON list,
the status resolution of main.py line 120 does not map it to needs_review: the
dict.get call raises TypeError on the unhashable key and the request fails with
a processing error, so the resolution is not total over decoded statuses. -/
theorem status_resolution_unhashable_counterexample :
    validate_multiple_documents (.ok rawListStatus) = vrListStatus ∧
    statusMappingGet (some (jarr [])) = none ∧
    submit_claim_respond vrListStatus = none := by
  exact ⟨rfl, rfl, rfl⟩

/-- Claim C4 as amended: over every hashable decoded status - any string, a
number, a boolean, null, or an absent value - the resolution is total into
approved, rejected or needs_review; it maps to approved exactly on the string
APPROVED (so no unrecognized verdict ever resolves to approved), maps the
string REJECTED to rejected and the string NEEDS_REVIEW to needs_review, and
maps every other such value, absent included, to needs_review; a list- or
object-valued status instead raises an unhandled TypeError. -/
theorem status_resolution_fail_safe (x : Option JValue)
    (h : ∀ v, x = some v → pyHashable v = true) :
    (statusMappingGet x = some (("approved").data) ∨
     statusMappingGet x = some (("rejected").data) ∨
     statusMappingGet x = some (("needs_review").data)) ∧
    (statusMappingGet x = some (("approved").data) ↔
      x = some (jstr (("APPROVED").data))) ∧
    (x = some (jstr (("REJECTED").data)) →
      statusMappingGet x = some (("rejected").data)) ∧
    (x = some (jstr (("NEEDS_REVIEW").data)) →
      statusMappingGet x = some (("needs_review").data)) ∧
    (x ≠ some (jstr (("APPROVED").data)) →
      x ≠ some (jstr (("REJECTED").data)) →
      x ≠ some (jstr (("NEEDS_REVIEW").data)) →
      statusMappingGet x = some (("needs_review").data)) := by
  cases x with
  | none =>
      refine ⟨Or.inr (Or.inr rfl), ⟨fun hx => ?_, fun hx => ?_⟩,
        fun hx => ?_, fun hx => ?_, fun _ _ _ => rfl⟩
      · injection hx with hx'
        exact absurd hx' (by decide)
      · exact Option.noConfusion hx
      · exact Option.noConfusion hx
      · exact Option.noConfusion hx
  | some v =>
      have hv : pyHashable v = true := h v rfl
      cases v with
      | jarr xs => simp [pyHashable] at hv
      | jobj kvs => simp [pyHashable] at hv
      | jnull =>
          refine ⟨Or.inr (Or.inr rfl), ⟨fun hx => ?_, fun hx => ?_⟩,
            fun hx => ?_, fun hx => ?_, fun _ _ _ => rfl⟩
          · injection hx with hx'
            exact absurd hx' (by decide)
          · simp at hx
          · simp at hx
          · simp at hx
      | jbool b =>
          refine ⟨Or.inr (Or.inr rfl), ⟨fun hx => ?_, fun hx => ?_⟩,
            fun hx => ?_, fun hx => ?_, fun _ _ _ => rfl⟩
          · injection hx with hx'
            exact absurd
              (show (("needs_review").data : List Char) = ("approved").data from hx')
              (by decide)
          · simp at hx
          · simp at hx
          · simp at hx
      | jnum lex =>
          refine ⟨Or.inr (Or.inr rfl), ⟨fun hx => ?_, fun hx => ?_⟩,
            fun hx => ?_, fun hx => ?_, fun _ _ _ => rfl⟩
          · injection hx with hx'
            exact absurd
              (show (("needs_review").data : List Char) = ("approved").data from hx')
              (by decide)
          · simp at hx
          · simp at hx
          · simp at hx
      | jstr s =>
          by_cases hA : s = ("APPROVED").data
          · subst hA
            refine ⟨Or.inl rfl, ⟨fun _ => rfl, fun _ => rfl⟩,
              fun hx => ?_, fun hx => ?_, fun hne _ _ => absurd rfl hne⟩
            · injection hx with hx'
              injection hx' with hx''
              exact absurd hx'' (by decide)
            · injection hx with hx'
              injection hx' with hx''
              exact absurd hx'' (by decide)
          · have hA' : (decide ((("APPROVED").data : List Char) = s)) = false :=
              decide_eq_false (fun heq => hA heq.symm)
            by_cases hR : s = ("REJECTED").data
            · subst hR
              have hsm : statusMappingGet (some (jstr (("REJECTED").data))) =
                  some (("rejected").data) := rfl
              refine ⟨Or.inr (Or.inl rfl), ⟨fun hx => ?_, fun hx => ?_⟩,
                fun _ => rfl, fun hx => ?_, fun _ hne _ => absurd rfl hne⟩
              · rw [hsm] at hx
                injection hx with hx'
                exact absurd hx' (by decide)
              · injection hx with hx'
                injection hx' with hx''
                exact absurd hx'' hA
              · injection hx with hx'
                injection hx' with hx''
                exact absurd hx'' (by decide)
            · have hR' : (decide ((("REJECTED").data : List Char) = s)) = false :=
                decide_eq_false (fun heq => hR heq.symm)
              by_cases hN : s = ("NEEDS_REVIEW").data
              · subst hN
                have hsm : statusMappingGet (some (jstr (("NEEDS_REVIEW").data))) =
                    some (("needs_review").data) := rfl
                refine ⟨Or.inr (Or.inr rfl), ⟨fun hx => ?_, fun hx => ?_⟩,
                  fun hx => ?_, fun _ => rfl, fun _ _ hne => absurd rfl hne⟩
                · rw [hsm] at hx
                  injection hx with hx'
                  exact absurd hx' (by decide)
                · injection hx with hx'
                  injection hx' with hx''
                  exact absurd hx'' hA
                · injection hx with hx'
                  injection hx' with hx''
                  exact absurd hx'' (by decide)
              · have hN' : (decide ((("NEEDS_REVIEW").data : List Char) = s)) = false :=
                  decide_eq_false (fun heq => hN heq.symm)
                have hsm : statusMappingGet (some (jstr s)) = some (("needs_review").data) := by
                  simp [statusMappingGet, pyHashable, status_mapping, List.find?, hA', hR', hN']
                refine ⟨Or.inr (Or.inr hsm), ⟨fun hx => ?_, fun hx => ?_⟩,
                  fun hx => ?_, fun _ => hsm, fun _ _ _ => hsm⟩
                · rw [hsm] at hx
                  injection hx with hx'
                  exact absurd hx' (by decide)
                · injection hx with hx'
                  injection hx' with hx''
                  exact absurd hx'' hA
                · injection hx with hx'
                  injection hx' with hx''
                  exact absurd hx'' hR

/-- Witness for the amended claim C4: the unrecognized verdict BANANA is
hashable and resolves to needs_review through the fail-safe default. -/
theorem status_resolution_fail_safe_witness :
    statusMappingGet (some (jstr (("BANANA").data))) = some (("needs_review").data) :=
  (status_resolution_fail_safe (some (jstr (("BANANA").data)))
      (fun v hv => by injection hv with h1; rw [← h1]; rfl)).2.2.2.2
    (by intro hx; injection hx with h1; injection h1 with h2; exact absurd h2 (by decide))
    (by intro hx; injection hx with h1; injection h1 with h2; exact absurd h2 (by decide))
    (by intro hx; injection hx with h1; injection h1 with h2; exact absurd h2 (by decide))

/-! Report aggregation (main.py lines 123-147). -/

/-- Claim C5: in the findings loop, a finding whose status is not FAILED
contributes nothing to either issues list regardless of its severity, while a
FAILED finding contributes the combined document-requirement-explanation string
to exactly one list: critical_issues when its severity is CRITICAL, the general
issues list otherwise, and never both. -/
theorem aggregator_failed_finding_routing (d : JValue) (kvs : List (List Char × JValue))
    (acc cacc : List (List Char)) :
    (optEqStr (dictLookup kvs (("status").data)) (("FAILED").data) = false →
        runFindings d [jobj kvs] acc cacc = some (acc, cacc)) ∧
    (optEqStr (dictLookup kvs (("status").data)) (("FAILED").data) = true →
      ∀ t, findingText d (jobj kvs) = some t →
        ((optEqStr (dictLookup kvs (("severity").data)) (("CRITICAL").data) = true →
            runFindings d [jobj kvs] acc cacc = some (acc, cacc ++ [t])) ∧
         (optEqStr (dictLookup kvs (("severity").data)) (("CRITICAL").data) = false →
            runFindings d [jobj kvs] acc cacc = some (acc ++ [t], cacc)))) := by
  constructor
  · intro hst
    simp [runFindings, pyGet, hst]
  · intro hst t ht
    constructor
    · intro hsev
      simp [runFindings, pyGet, hst, ht, hsev]
    · intro hsev
      simp [runFindings, pyGet, hst, ht, hsev]

/-- Witness for claim C5: a FAILED finding of CRITICAL severity lands only in
critical_issues. -/
theorem aggregator_failed_finding_routing_witness :
    optEqStr (dictLookup sampleFindingKvs (("status").data)) (("FAILED").data) = true ∧
    findingText sampleDoc (jobj sampleFindingKvs) = some (("doc1 - req: exp").data) ∧
    optEqStr (dictLookup sampleFindingKvs (("severity").data)) (("CRITICAL").data) = true ∧
    runFindings sampleDoc [jobj sampleFindingKvs] [] [] =
      some ([], [("doc1 - req: exp").data]) := by
  refine ⟨rfl, rfl, rfl, ?_⟩
  exact (((aggregator_failed_finding_routing sampleDoc sampleFindingKvs [] []).2
    rfl) (("doc1 - req: exp").data) rfl).1 rfl

theorem runFindings_accum (d : JValue) (fl : List JValue) :
    ∀ acc cacc, runFindings d fl acc cacc =
      (runFindings d fl [] []).map (fun p => (acc ++ p.1, cacc ++ p.2)) := by
  induction fl with
  | nil => intro acc cacc; simp [runFindings]
  | cons f rest ih =>
      intro acc cacc
      simp only [runFindings]
      cases hst : pyGet f (("status").data) with
      | none => simp
      | some st =>
          simp only [Option.bind_eq_bind, Option.some_bind]
          cases hf : optEqStr st (("FAILED").data) with
          | false =>
              simp only [Bool.false_eq_true, if_false]
              exact ih acc cacc
          | true =>
              simp only [if_true]
              cases hft : findingText d f with
              | none => simp
              | some t =>
                  simp only [Option.bind_eq_bind, Option.some_bind]
                  cases hsv : pyGet f (("severity").data) with
                  | none => simp
                  | some sv =>
                      simp only [Option.bind_eq_bind, Option.some_bind]
                      cases hc : optEqStr sv (("CRITICAL").data) with
                      | false =>
                          simp only [Bool.false_eq_true, if_false]
                          rw [ih (acc ++ [t]) cacc, ih ([] ++ [t]) []]
                          cases hb : runFindings d rest [] [] <;>
                            simp [List.append_assoc]
                      | true =>
                          simp only [if_true]
                          rw [ih acc (cacc ++ [t]), ih [] ([] ++ [t])]
                          cases hb : runFindings d rest [] [] <;>
                            simp [List.append_assoc]

theorem runReports_accum (rs : List JValue) :
    ∀ acc cacc recs, runReports rs acc cacc recs =
      (runReports rs [] [] []).map
        (fun p => (acc ++ p.1, cacc ++ p.2.1, recs ++ p.2.2)) := by
  induction rs with
  | nil => intro acc cacc recs; simp [runReports]
  | cons d rest ih =>
      intro acc cacc recs
      simp only [runReports]
      cases hfv : pyGetD d (("detailed_findings").data) (jarr []) with
      | none => simp
      | some fv =>
          simp only [Option.bind_eq_bind, Option.some_bind]
          cases hfl : pyIter fv with
          | none => simp
          | some fl =>
              simp only [Option.bind_eq_bind, Option.some_bind]
              rw [runFindings_accum d fl acc cacc]
              cases hrf : runFindings d fl [] [] with
              | none => simp
              | some pr =>
                  obtain ⟨i, c⟩ := pr
                  simp only [Option.bind_eq_bind, Option.some_bind, Option.map_some']
                  cases hrv : pyGetD d (("recommendations").data) (jarr []) with
                  | none => simp
                  | some rv =>
                      simp only [Option.bind_eq_bind, Option.some_bind]
                      cases hrl : pyIter rv with
                      | none => simp
                      | some rl =>
                          simp only [Option.bind_eq_bind, Option.some_bind]
                          rw [ih (acc ++ i) (cacc ++ c) (recs ++ rl), ih i c ([] ++ rl)]
                          cases hb : runReports rest [] [] [] <;>
                            simp [List.append_assoc]

theorem runReports_eq_docPartsAll (rs : List JValue) :
    runReports rs [] [] [] = docPartsAll rs := by
  induction rs with
  | nil => rfl
  | cons d rest ih =>
      simp only [runReports, docPartsAll, docParts]
      cases hfv : pyGetD d (("detailed_findings").data) (jarr []) with
      | none => simp
      | some fv =>
          simp only [Option.bind_eq_bind, Option.some_bind]
          cases hfl : pyIter fv with
          | none => simp
          | some fl =>
              simp only [Option.bind_eq_bind, Option.some_bind]
              cases hrf : runFindings d fl [] [] with
              | none => simp
              | some pr =>
                  obtain ⟨i, c⟩ := pr
                  simp only [Option.bind_eq_bind, Option.some_bind]
                  cases hrv : pyGetD d (("recommendations").data) (jarr []) with
                  | none => simp
                  | some rv =>
                      simp only [Option.bind_eq_bind, Option.some_bind]
                      cases hrl : pyIter rv with
                      | none => simp
                      | some rl =>
                          simp only [Option.bind_eq_bind, Option.some_bind]
                          rw [runReports_accum rest i c ([] ++ rl), ih]
                          cases hb : docPartsAll rest <;> simp

/-- Claim C6: the aggregation of main.py lines 123-147 equals its
order-preserving flattened form: per-document contributions concatenated in
document order (document i before document i+1), all per-document issue strings
before the Missing document strings, those before the Cross-document issue
strings, and recommendations as each document's list in document order followed
by the overall recommendations; the severity-based critical/general bucketing
is the only reordering performed. -/
theorem aggregation_order_preserving (vr oa : JValue) :
    aggregate vr oa = aggregateFlattenSpec vr oa := by
  simp only [aggregate, aggregateFlattenSpec, runReports_eq_docPartsAll]
